import Mathlib

/-!
Verification development for the slash-command dispatch and result-formatting
pipeline of a travel-assistant chat bridge.

The development shallowly embeds two Python modules:
  - mcp_use/agents/prompt_viewer.py  (result parsing and Markdown formatting)
  - mcp_use/agents/slash_commands.py (command parsing, dispatch, pending-result tracking)

Python values flowing through the pipeline are modelled by the inductive type
PyVal (strings, integers, booleans, None, lists, dicts).  Python string
operations are modelled over lists of characters.  Python dicts are modelled
as association lists with insertion-order semantics (inserting an existing key
updates the value in place; a new key is appended at the end), matching the
ordered dictionaries the source relies on.

Modelling notes, stated once here:
  - The model covers the ASCII fragment of Python string methods (strip, lower,
    split, startswith, endswith, substring containment); on the inputs used in
    this development the two agree character for character.
  - The model of json.loads covers JSON documents made of objects, arrays,
    double-quoted strings with simple escapes, integers, true/false/null and
    blanks; numbers with fractions or exponents and unicode escapes are outside
    the modelled fragment and no theorem below relies on such inputs.
  - Operations that raise TypeError in Python when a record field holds an
    unexpected dynamic type (slicing, joining or ordering a non-string value)
    are totalised by first rendering the value with the str() model; every
    theorem below evaluates the embedding only on inputs where the Python code
    performs the same character-level computation.
-/

/-! ### Python string primitives, modelled over lists of characters -/

/-- Model of Python str.strip with no arguments: remove leading and trailing
whitespace characters. -/
def pyStripL (l : List Char) : List Char :=
  ((l.dropWhile Char.isWhitespace).reverse.dropWhile Char.isWhitespace).reverse

/-- Helper for splitWsL: acc holds the characters of the current token in
reverse order. -/
def splitWsAux : List Char → List Char → List (List Char)
  | [], acc => if acc.isEmpty then [] else [acc.reverse]
  | c :: cs, acc =>
    if c.isWhitespace then
      if acc.isEmpty then splitWsAux cs [] else acc.reverse :: splitWsAux cs []
    else splitWsAux cs (c :: acc)

/-- Model of Python str.split with no arguments: split on runs of whitespace,
producing no empty tokens. -/
def splitWsL (l : List Char) : List (List Char) := splitWsAux l []

/-- Model of Python str.split on a one-character separator: keeps empty pieces,
never returns an empty list. -/
def splitOnCharL (sep : Char) : List Char → List (List Char)
  | [] => [[]]
  | c :: cs =>
    if c = sep then [] :: splitOnCharL sep cs
    else
      match splitOnCharL sep cs with
      | [] => [[c]]
      | t :: ts => (c :: t) :: ts

/-- Python str.strip, lifted to strings. -/
def pyStrip (s : String) : String := ⟨pyStripL s.data⟩

/-- Python str.lower, lifted to strings (ASCII fragment). -/
def pyLower (s : String) : String := ⟨s.data.map Char.toLower⟩

/-- Python slicing s[n:] by characters. -/
def strDrop (s : String) (n : Nat) : String := ⟨s.data.drop n⟩

/-- Python slicing s[:n] by characters. -/
def strTake (s : String) (n : Nat) : String := ⟨s.data.take n⟩

/-- Python len on a string, counting characters. -/
def strLen (s : String) : Nat := s.data.length

/-- Python str.startswith. -/
def pyStartsWith (s pre : String) : Bool := List.isPrefixOf pre.data s.data

/-- Python str.endswith. -/
def pyEndsWith (s suf : String) : Bool := List.isSuffixOf suf.data s.data

/-- List-level substring membership check. -/
def isSubL (needle : List Char) : List Char → Bool
  | [] => needle.isEmpty
  | c :: t => List.isPrefixOf needle (c :: t) || isSubL needle t

/-- Python substring membership: needle in hay. -/
def pyInS (needle hay : String) : Bool := isSubL needle.data hay.data

/-- Python str.split with no arguments, lifted to strings. -/
def pySplitWs (s : String) : List String := (splitWsL s.data).map (⟨·⟩)

/-- Python str.split on a one-character separator, lifted to strings. -/
def pySplitChar (sep : Char) (s : String) : List String :=
  (splitOnCharL sep s.data).map (⟨·⟩)

/-- Python str.replace where the pattern is a single character. -/
def pyReplaceChar (s : String) (c : Char) (repl : String) : String :=
  ⟨(s.data.map (fun d => if d = c then repl.data else [d])).flatten⟩

/-- Python sep.join(xs). -/
def pyJoin (sep : String) (xs : List String) : String := String.intercalate sep xs

/-! ### Python values -/

/-- A Python value as it flows through the pipeline: strings, integers,
booleans, None, lists and (insertion-ordered) dicts. -/
inductive PyVal where
  | str (s : String)
  | num (n : Int)
  | bool (b : Bool)
  | null
  | list (xs : List PyVal)
  | dict (kvs : List (String × PyVal))

mutual

/-- Python value equality as a boolean test (the == of Python restricted to
the modelled value types). -/
def PyVal.beq : PyVal → PyVal → Bool
  | .str a, .str b => a == b
  | .num a, .num b => a == b
  | .bool a, .bool b => a == b
  | .null, .null => true
  | .list xs, .list ys => PyVal.beqList xs ys
  | .dict xs, .dict ys => PyVal.beqKVs xs ys
  | _, _ => false

/-- Elementwise boolean equality on lists of values. -/
def PyVal.beqList : List PyVal → List PyVal → Bool
  | [], [] => true
  | x :: xs, y :: ys => PyVal.beq x y && PyVal.beqList xs ys
  | _, _ => false

/-- Elementwise boolean equality on dict entries. -/
def PyVal.beqKVs : List (String × PyVal) → List (String × PyVal) → Bool
  | [], [] => true
  | (k, v) :: xs, (k2, v2) :: ys => k == k2 && PyVal.beq v v2 && PyVal.beqKVs xs ys
  | _, _ => false

end

/-- Python truthiness. -/
def pyTruthy : PyVal → Bool
  | .str s => !(s == "")
  | .num n => !(n == 0)
  | .bool b => b
  | .null => false
  | .list xs => !xs.isEmpty
  | .dict kvs => !kvs.isEmpty

/-- Python repr: used by str() on containers. -/
def pyRepr : PyVal → String
  | .str s => "\x27" ++ s ++ "\x27"
  | .num n => toString n
  | .bool b => if b then "True" else "False"
  | .null => "None"
  | .list xs => "[" ++ pyJoin ", " (xs.attach.map (fun x => pyRepr x.1)) ++ "]"
  | .dict kvs => "\x7b" ++
      pyJoin ", " (kvs.attach.map (fun kv => "\x27" ++ kv.1.1 ++ "\x27: " ++ pyRepr kv.1.2)) ++
      "\x7d"
decreasing_by
  · have h := List.sizeOf_lt_of_mem x.2
    simp only [PyVal.list.sizeOf_spec]
    omega
  · have h2 : sizeOf kv.1 < sizeOf kvs := List.sizeOf_lt_of_mem kv.2
    have h1 : sizeOf kv.1.2 < sizeOf kv.1 := by
      obtain ⟨⟨a, b⟩, hmem⟩ := kv
      simp
    simp only [PyVal.dict.sizeOf_spec]
    omega

/-- Python str() rendering, as used by f-string interpolation. -/
def pyStr : PyVal → String
  | .str s => s
  | v => pyRepr v

/-- Ordered-dict insert: update an existing key in place, append a new key. -/
def dictInsert (d : List (String × PyVal)) (k : String) (v : PyVal) :
    List (String × PyVal) :=
  if d.any (fun kv => kv.1 = k) then
    d.map (fun kv => if kv.1 = k then (k, v) else kv)
  else d ++ [(k, v)]

/-- Python dict containment: k in d. -/
def dictHas (d : List (String × PyVal)) (k : String) : Bool :=
  d.any (fun kv => kv.1 = k)

/-- Python d.get(k, default). -/
def dictGetD (d : List (String × PyVal)) (k : String) (dflt : PyVal) : PyVal :=
  match d.find? (fun kv => kv.1 = k) with
  | Option.some kv => kv.2
  | Option.none => dflt

/-- Row access row.get(k, default), totalised to the default on a non-dict row
(Python raises AttributeError there; no theorem evaluates that corner). -/
def rowGetD (row : PyVal) (k : String) (dflt : PyVal) : PyVal :=
  match row with
  | .dict kvs => dictGetD kvs k dflt
  | _ => dflt

/-- Row containment k in row, totalised to false on a non-dict row. -/
def rowHas (row : PyVal) (k : String) : Bool :=
  match row with
  | .dict kvs => dictHas kvs k
  | _ => false

/-- Python v[0] on a list value, totalised to None otherwise (Python raises
TypeError there; no theorem evaluates that corner). -/
def pyIndex0 : PyVal → PyVal
  | .list (x :: _) => x
  | _ => .null

/-- Iterating a value as a list of rows, totalised to the empty list on
non-list values (Python would iterate characters or raise there). -/
def pyRows : PyVal → List PyVal
  | .list xs => xs
  | _ => []

/-- Python len, totalised to 0 on values without a length. -/
def pyLen : PyVal → Nat
  | .str s => strLen s
  | .list xs => xs.length
  | .dict kvs => kvs.length
  | _ => 0

/-! ### Model of json.loads (integer-number fragment) -/

/-- JSON whitespace skipping. -/
def jsonSkipWs : List Char → List Char
  | c :: cs =>
    if c = ' ' ∨ c = '\t' ∨ c = '\n' ∨ c = '\r' then jsonSkipWs cs else c :: cs
  | [] => []

/-- Parse the body of a JSON string after the opening quote, handling the
simple escapes; returns the decoded characters and the rest after the closing
quote. -/
def jsonParseStr : List Char → Option (List Char × List Char)
  | [] => Option.none
  | c :: cs =>
    if c = '"' then Option.some ([], cs)
    else if c = '\\' then
      match cs with
      | [] => Option.none
      | e :: cs2 =>
        let dec : Option Char :=
          if e = '"' then Option.some '"'
          else if e = '\\' then Option.some '\\'
          else if e = '/' then Option.some '/'
          else if e = 'n' then Option.some '\n'
          else if e = 't' then Option.some '\t'
          else if e = 'r' then Option.some '\r'
          else if e = 'b' then Option.some (Char.ofNat 8)
          else if e = 'f' then Option.some (Char.ofNat 12)
          else Option.none
        match dec with
        | Option.none => Option.none
        | Option.some d =>
          match jsonParseStr cs2 with
          | Option.some (body, rest) => Option.some (d :: body, rest)
          | Option.none => Option.none
    else
      match jsonParseStr cs with
      | Option.some (body, rest) => Option.some (c :: body, rest)
      | Option.none => Option.none

/-- Parse an integer JSON number (optional minus sign, one or more digits). -/
def jsonParseNum (l : List Char) : Option (Int × List Char) :=
  let (neg, l2) :=
    match l with
    | c :: cs => if c = '-' then (true, cs) else (false, l)
    | [] => (false, l)
  let digits := l2.takeWhile Char.isDigit
  let rest := l2.dropWhile Char.isDigit
  if digits = [] then Option.none
  else
    let n : Nat := digits.foldl (fun acc d => acc * 10 + (d.toNat - 48)) 0
    Option.some (if neg then -(n : Int) else (n : Int), rest)

mutual

/-- Parse one JSON value; fuel-indexed recursion. -/
def jsonParseVal : Nat → List Char → Option (PyVal × List Char)
  | 0, _ => Option.none
  | fuel + 1, l =>
    match jsonSkipWs l with
    | [] => Option.none
    | c :: cs =>
      if c = 'n' then
        match cs with
        | 'u' :: 'l' :: 'l' :: rest => Option.some (.null, rest)
        | _ => Option.none
      else if c = 't' then
        match cs with
        | 'r' :: 'u' :: 'e' :: rest => Option.some (.bool true, rest)
        | _ => Option.none
      else if c = 'f' then
        match cs with
        | 'a' :: 'l' :: 's' :: 'e' :: rest => Option.some (.bool false, rest)
        | _ => Option.none
      else if c = '"' then
        match jsonParseStr cs with
        | Option.some (body, rest) => Option.some (.str ⟨body⟩, rest)
        | Option.none => Option.none
      else if c = '[' then
        match jsonSkipWs cs with
        | ']' :: rest => Option.some (.list [], rest)
        | l2 =>
          match jsonArrItems fuel l2 with
          | Option.some (xs, rest) => Option.some (.list xs, rest)
          | Option.none => Option.none
      else if c = '\x7b' then
        match jsonSkipWs cs with
        | '\x7d' :: rest => Option.some (.dict [], rest)
        | l2 =>
          match jsonObjItems fuel [] l2 with
          | Option.some (kvs, rest) => Option.some (.dict kvs, rest)
          | Option.none => Option.none
      else
        match jsonParseNum (c :: cs) with
        | Option.some (n, rest) => Option.some (.num n, rest)
        | Option.none => Option.none

/-- Parse the comma-separated items of a nonempty JSON array, up to and
including the closing bracket. -/
def jsonArrItems : Nat → List Char → Option (List PyVal × List Char)
  | 0, _ => Option.none
  | fuel + 1, l =>
    match jsonParseVal fuel l with
    | Option.none => Option.none
    | Option.some (v, rest) =>
      match jsonSkipWs rest with
      | ',' :: rest2 =>
        match jsonArrItems fuel rest2 with
        | Option.some (xs, rest3) => Option.some (v :: xs, rest3)
        | Option.none => Option.none
      | ']' :: rest2 => Option.some ([v], rest2)
      | _ => Option.none

/-- Parse the members of a nonempty JSON object into an insertion-ordered
dict, up to and including the closing brace. -/
def jsonObjItems : Nat → List (String × PyVal) → List Char →
    Option (List (String × PyVal) × List Char)
  | 0, _, _ => Option.none
  | fuel + 1, acc, l =>
    match jsonSkipWs l with
    | '"' :: cs =>
      match jsonParseStr cs with
      | Option.none => Option.none
      | Option.some (key, rest) =>
        match jsonSkipWs rest with
        | ':' :: rest2 =>
          match jsonParseVal fuel rest2 with
          | Option.none => Option.none
          | Option.some (v, rest3) =>
            let acc2 := dictInsert acc ⟨key⟩ v
            match jsonSkipWs rest3 with
            | ',' :: rest4 => jsonObjItems fuel acc2 rest4
            | '\x7d' :: rest4 => Option.some (acc2, rest4)
            | _ => Option.none
        | _ => Option.none
    | _ => Option.none

end

/-- Model of Python json.loads restricted to the fragment described in the
header: returns the parsed value, or none where json.loads raises
JSONDecodeError.  The whole input must be consumed up to trailing blanks. -/
def jsonLoads (s : String) : Option PyVal :=
  match jsonParseVal (2 * s.data.length + 4) s.data with
  | Option.some (v, rest) =>
    if jsonSkipWs rest = [] then Option.some v else Option.none
  | Option.none => Option.none

/-! ### Embedding of mcp_use/agents/prompt_viewer.py -/

/-- The error substrings scanned for by PromptViewer.parse_db_results. -/
def error_patterns : List String :=
  ["connection failed", "database error", "query failed", "server error",
   "not found", "timeout", "failed to connect"]

/-- Cells of one pipe-table line: split on the pipe character, strip each
cell, keep the nonempty ones. -/
def cellsOf (l : List Char) : List String :=
  (((splitOnCharL '|' l).map pyStripL).filter (fun h => !h.isEmpty)).map (⟨·⟩)

/-- Build a Python dict from key/value pairs by successive insertion,
mirroring dict(zip(headers, values)). -/
def pyDictOfPairs (ps : List (String × PyVal)) : List (String × PyVal) :=
  ps.foldl (fun d kv => dictInsert d kv.1 kv.2) []

/-- The line scan of PromptViewer.parse_text_results: the first pipe line not
starting with a dash becomes the header, later matching pipe lines become
rows, rows of the wrong arity are dropped. -/
def tableLoop : List (List Char) → Option (List String) → List PyVal → List PyVal
  | [], _, rows => rows
  | l :: ls, hdr?, rows =>
    if l.contains '|' && !(List.isPrefixOf ['-'] (pyStripL l)) then
      match hdr? with
      | Option.none => tableLoop ls (Option.some (cellsOf l)) rows
      | Option.some headers =>
        let values := cellsOf l
        if values.length = headers.length then
          tableLoop ls (Option.some headers)
            (rows ++ [PyVal.dict (pyDictOfPairs (headers.zip (values.map PyVal.str)))])
        else tableLoop ls (Option.some headers) rows
    else tableLoop ls hdr? rows

/-- Embedding of PromptViewer.parse_text_results: strip the text, split into
lines, and run the pipe-table scan only when the first line contains a pipe
character. -/
def parse_text_results (text : String) : List PyVal :=
  let lines := splitOnCharL '\n' (pyStripL text.data)
  match lines with
  | [] => []
  | first :: _ =>
    if first.contains '|' then tableLoop lines Option.none []
    else []

/-- Embedding of PromptViewer.parse_db_results.  The source function can fall
off its own end, which in Python yields the value None; that outcome is the
PyVal.null result here.  The surrounding try/except never fires because every
modelled operation is total. -/
def parse_db_results (db_results : PyVal) : PyVal :=
  match db_results with
  | .str s =>
    let lower_result := pyLower s
    if error_patterns.any (fun p => pyInS p lower_result) then .list []
    else
      match jsonLoads s with
      | Option.some data =>
        match data with
        | .list xs => .list xs
        | .dict kvs =>
          if dictHas kvs "results" then dictGetD kvs "results" .null
          else if dictHas kvs "rows" then dictGetD kvs "rows" .null
          else if dictHas kvs "error" then .list []
          else .null
        | _ => .null
      | Option.none => .list (parse_text_results s)
  | .list xs => .list xs
  | .dict kvs =>
    if dictHas kvs "error" then .list []
    else if dictHas kvs "results" then dictGetD kvs "results" .null
    else if dictHas kvs "rows" then dictGetD kvs "rows" .null
    else .list [PyVal.dict kvs]
  | _ => .list []

/-- The grouping key used by the list and dashboard views. -/
def categoryOf (row : PyVal) : PyVal := rowGetD row "category" (.str "Uncategorized")

/-- One step of building the by_category ordered dict: append to an existing
group, or append a new group at the end. -/
def group_insert (acc : List (PyVal × List PyVal)) (k : PyVal) (p : PyVal) :
    List (PyVal × List PyVal) :=
  if acc.any (fun g => PyVal.beq g.1 k) then
    acc.map (fun g => if PyVal.beq g.1 k then (g.1, g.2 ++ [p]) else g)
  else acc ++ [(k, [p])]

/-- The by_category grouping shared by format_prompt_list and
create_prompt_editor_view. -/
def groupByCat (rows : List PyVal) : List (PyVal × List PyVal) :=
  rows.foldl (fun acc p => group_insert acc (categoryOf p) p) []

/-- The rendered key strings of a grouping accumulator, used to relate the
group count to the number of distinct categories. -/
def strKeys (acc : List (PyVal × List PyVal)) : List String :=
  acc.map (fun g => pyStr g.1)

/-- Stable insertion into a list sorted ascending by a string key. -/
def insertByKey (key : α → String) (x : α) : List α → List α
  | [] => [x]
  | y :: ys => if key y < key x then y :: insertByKey key x ys else x :: y :: ys

/-- Stable sort by a string key, the model of Python sorted with a key
function (sorting a non-string key raises in Python; the model renders the
key with str() first, and no theorem evaluates that corner). -/
def sortByKey (key : α → String) (l : List α) : List α :=
  l.foldr (insertByKey key) []

/-- The sort key lambda p: p.get("name", "") used by both views. -/
def nameKeyD (p : PyVal) : String := pyStr (rowGetD p "name" (.str ""))

/-- Embedding of PromptViewer.format_prompt_list. -/
def format_prompt_list (prompts : List PyVal) : String :=
  if prompts.isEmpty then "No prompts found."
  else
    let by_category := groupByCat prompts
    "# Available Prompts\n\n" ++
    String.join ((sortByKey (fun g => pyStr g.1) by_category).map (fun g =>
      "## " ++ pyStr g.1 ++ "\n\n" ++
      String.join ((sortByKey nameKeyD g.2).map (fun p =>
        "- **" ++ pyStr (rowGetD p "name" (.str "Unnamed")) ++ "**: " ++
        pyStr (rowGetD p "description" (.str "No description")) ++ "\n")) ++ "\n"))

/-- Embedding of PromptViewer.format_prompt_detail. -/
def format_prompt_detail (prompt : PyVal) : String :=
  let name := rowGetD prompt "name" (.str "Unnamed Prompt")
  let desc := rowGetD prompt "description" (.str "No description")
  let content := rowGetD prompt "content" (rowGetD prompt "prompt" (.str "No content"))
  let category := rowGetD prompt "category" (.str "Uncategorized")
  let tags := rowGetD prompt "tags" (.list [])
  let out1 := "# " ++ pyStr name ++ "\n\n" ++
    "**Category:** " ++ pyStr category ++ "\n" ++
    "**Description:** " ++ pyStr desc ++ "\n"
  let out2 :=
    if pyTruthy tags then
      match tags with
      | .str s => out1 ++ "**Tags:** " ++ s ++ "\n"
      | _ => out1 ++ "**Tags:** " ++ pyJoin ", " ((pyRows tags).map pyStr) ++ "\n"
    else out1
  let out3 := out2 ++ "\n## Content\n\n```\n" ++ pyStr content ++ "\n```\n"
  let metadata_output := (["created_at", "updated_at", "version", "author"].filter
      (fun f => rowHas prompt f)).map (fun f => f ++ ": " ++ pyStr (rowGetD prompt f .null))
  if !metadata_output.isEmpty then out3 ++ "\n## Metadata\n\n" ++ pyJoin "\n" metadata_output
  else out3

/-- The fixed text that create_prompt_editor_view emits before the table. -/
def editorIntro : String :=
  "# Prompt Management Dashboard\n\n" ++
  "This view shows all prompts from the D1 database. " ++
  "You can use the slash commands to manage them:\n\n" ++
  "- `/prompts list` - List all prompts\n" ++
  "- `/prompts view <name>` - View a specific prompt\n" ++
  "- `/prompts edit <name>` - Edit a prompt\n" ++
  "- `/prompts create <name>` - Create a new prompt\n" ++
  "- `/prompts delete <name>` - Delete a prompt\n\n" ++
  "---\n\n"

/-- One data row of the dashboard table. -/
def editorRow (cat : String) (p : PyVal) : String :=
  let name := pyStr (rowGetD p "name" (.str "Unnamed"))
  let desc0 := strTake (pyStr (rowGetD p "description" (.str "No description"))) 50
  let desc := if pyLen (rowGetD p "description" (.str "")) > 50 then desc0 ++ "..." else desc0
  let actions := "[View](/prompts view " ++ name ++ ") | [Edit](/prompts edit " ++ name ++ ")"
  "| " ++ cat ++ " | " ++ name ++ " | " ++ desc ++ " | " ++ actions ++ " |\n"

/-- Embedding of PromptViewer.create_prompt_editor_view. -/
def create_prompt_editor_view (prompts : List PyVal) : String :=
  let by_category := groupByCat prompts
  editorIntro ++
  "## All Prompts\n\n" ++
  "| Category | Name | Description | Actions |\n" ++
  "|----------|------|-------------|----------|\n" ++
  String.join ((sortByKey (fun g => pyStr g.1) by_category).map (fun g =>
    String.join ((sortByKey nameKeyD g.2).map (editorRow (pyStr g.1))))) ++
  "\n---\n\n" ++
  "## Quick Stats\n\n" ++
  ("- Total prompts: " ++ toString prompts.length ++ "\n") ++
  ("- Categories: " ++ toString by_category.length ++ "\n") ++
  String.join ((sortByKey (fun g => pyStr g.1) by_category).map (fun g =>
    "  - " ++ pyStr g.1 ++ ": " ++ toString g.2.length ++ " prompts\n"))

/-! ### Embedding of mcp_use/agents/slash_commands.py -/

/-- Identifies which handler method a registered command dispatches to; the
model of the handler field of SlashCommand.  The two registrations of the
quick-create handler in the source both resolve to the later method
definition, which is the one modelled here. -/
inductive HandlerTag where
  | travelInit
  | promptsH
  | serversH
  | connectH
  | toolsH
  | helpH
  | createPromptH
deriving DecidableEq

/-- A slash command definition (the SlashCommand dataclass). -/
structure SlashCommand where
  name : String
  description : String
  tag : HandlerTag
  usage : String
  aliases : List String

/-- Registration entries produced by one register_command call: the canonical
name first, then each alias, all mapping to the same descriptor. -/
def regEntries (c : SlashCommand) : List (String × SlashCommand) :=
  (c.name, c) :: c.aliases.map (fun a => (a, c))

/-- The travel command descriptor. -/
def travelCmd : SlashCommand :=
  ⟨"travel", "Initialize the travel assistant", .travelInit,
   "/travel or /t", ["t", "init-travel", "travel-init", "start"]⟩

/-- The go command descriptor. -/
def goCmd : SlashCommand :=
  ⟨"go", "Quick start travel assistant (alias for /travel)", .travelInit,
   "/go", ["g", "init"]⟩

/-- The prompts command descriptor. -/
def promptsCmd : SlashCommand :=
  ⟨"prompts", "View and manage D1 database prompts", .promptsH,
   "/prompts [list|view|dashboard|search|category|edit|create|delete|update]",
   ["p", "prompt"]⟩

/-- The servers command descriptor. -/
def serversCmd : SlashCommand :=
  ⟨"servers", "List available MCP servers", .serversH, "/servers",
   ["s", "list-servers"]⟩

/-- The connect command descriptor. -/
def connectCmd : SlashCommand :=
  ⟨"connect", "Connect to an MCP server", .connectH, "/connect <server-name>",
   ["c"]⟩

/-- The tools command descriptor. -/
def toolsCmd : SlashCommand :=
  ⟨"tools", "List available tools", .toolsH, "/tools [server-name]",
   ["tool", "list-tools"]⟩

/-- The help command descriptor. -/
def helpCmd : SlashCommand :=
  ⟨"help", "Show available slash commands", .helpH, "/help [command]",
   ["h", "?"]⟩

/-- The create-prompt command descriptor. -/
def createPromptCmd : SlashCommand :=
  ⟨"create-prompt", "Quick create a new prompt", .createPromptH,
   "/create-prompt <name>", ["cp", "new-prompt"]⟩

/-- The command table built by _register_default_commands, in registration
order.  No alias collides with another key, so successive dict insertion is
plain concatenation. -/
def commands : List (String × SlashCommand) :=
  regEntries travelCmd ++ regEntries goCmd ++ regEntries promptsCmd ++
  regEntries serversCmd ++ regEntries connectCmd ++ regEntries toolsCmd ++
  regEntries helpCmd ++ regEntries createPromptCmd

/-- Registry lookup: the model of self.commands[name] access. -/
def commandsGet? (k : String) : Option SlashCommand :=
  (commands.find? (fun kv => kv.1 = k)).map (fun kv => kv.2)

/-- Embedding of SlashCommandHandler.parse_command.  The Python triple
(None, None, None) is the none result; any other return is
some (command_name, subcommand, args). -/
def parse_command (input_text : String) :
    Option (String × Option String × List String) :=
  if pyStartsWith input_text "/" then
    let command_text := pyStrip (strDrop input_text 1)
    match pySplitWs command_text with
    | [] => Option.none
    | c :: rest => Option.some (pyLower c, rest.head?, rest.drop 1)
  else Option.none

/-- Embedding of SlashCommandHandler.is_slash_command. -/
def is_slash_command (input_text : String) : Bool :=
  pyStartsWith (pyStrip input_text) "/"

/-- The pending_format_requests dict: raw command text mapped to the stored
formatting tag. -/
def PendingMap := List (String × String)

/-- Insert or overwrite one pending entry (ordered-dict semantics). -/
def pendingInsert (d : PendingMap) (k v : String) : PendingMap :=
  let l : List (String × String) := d
  if l.any (fun kv => kv.1 = k) then
    l.map (fun kv => if kv.1 = k then (k, v) else kv)
  else l ++ [(k, v)]

/-- Pending lookup. -/
def pendingGet? (d : PendingMap) (k : String) : Option String :=
  ((d : List (String × String)).find? (fun kv => kv.1 = k)).map (fun kv => kv.2)

/-- Pending removal, the effect of dict.pop. -/
def pendingErase (d : PendingMap) (k : String) : PendingMap :=
  (d : List (String × String)).filter (fun kv => !(kv.1 == k))

/-- The fixed text returned by _travel_setup_wizard. -/
def travelSetupWizardText : String :=
  "# \uF8FFüßô Travel Assistant Setup Wizard\n" ++
  "\n" ++
  "Welcome! Let\x27s set up your travel assistant. Choose your configuration:\n" ++
  "\n" ++
  "## 1. Quick Setup Options:\n" ++
  "\n" ++
  "**A) Standard Travel Agent** `/travel load travel_agent_standard`\n" ++
  "- Full-service travel planning\n" ++
  "- Flight, hotel, and activity recommendations\n" ++
  "- Budget optimization\n" ++
  "\n" ++
  "**B) Luxury Travel Specialist** `/travel load luxury_travel_agent`\n" ++
  "- High-end travel planning\n" ++
  "- Exclusive experiences\n" ++
  "- Premium service focus\n" ++
  "\n" ++
  "**C) Budget Travel Expert** `/travel load budget_travel_expert`\n" ++
  "- Cost-effective travel solutions\n" ++
  "- Deals and savings focus\n" ++
  "- Value optimization\n" ++
  "\n" ++
  "**D) Adventure Travel Guide** `/travel load adventure_travel_guide`\n" ++
  "- Outdoor and adventure focus\n" ++
  "- Off-the-beaten-path destinations\n" ++
  "- Activity-based planning\n" ++
  "\n" ++
  "## 2. Custom Setup:\n" ++
  "Use `/travel custom [components]` with any combination:\n" ++
  "- `flights` - Flight search and booking assistance\n" ++
  "- `hotels` - Accommodation recommendations\n" ++
  "- `activities` - Tours and experiences\n" ++
  "- `itinerary` - Day-by-day planning\n" ++
  "- `budget` - Cost optimization\n" ++
  "- `safety` - Travel advisories and safety info\n" ++
  "\n" ++
  "Example: `/travel custom flights hotels itinerary`\n" ++
  "\n" ++
  "## 3. Manual Setup:\n" ++
  "- Check available prompts: `/travel check`\n" ++
  "- Load specific prompt: `/travel load <prompt_name>`\n" ++
  "- View prompt first: `/prompts view <prompt_name>`\n" ++
  "\n" ++
  "What would you like to set up?"

/-- The fixed text returned by _travel_init_help. -/
def travelInitHelpText : String :=
  "# Travel Assistant Initialization Options\n" ++
  "\n" ++
  "## Quick Start:\n" ++
  "- `/t` or `/travel` - Default initialization (uses prompt-server)\n" ++
  "- `/go` - Alias for quick start\n" ++
  "\n" ++
  "## Initialization Methods:\n" ++
  "- `/travel check` - List available travel prompts\n" ++
  "- `/travel db` - Load from database (fallback)\n" ++
  "- `/travel full` - Load all travel-related prompts\n" ++
  "- `/travel load <name>` - Load specific prompt by name\n" ++
  "- `/travel setup` - Interactive setup wizard\n" ++
  "- `/travel custom [options]` - Custom initialization\n" ++
  "\n" ++
  "## Examples:\n" ++
  "```\n" ++
  "/travel check                    # See what\x27s available\n" ++
  "/travel load travel_agent_pro    # Load specific prompt\n" ++
  "/travel custom flights hotels    # Custom setup\n" ++
  "/travel setup                    # Guided setup\n" ++
  "```\n" ++
  "\n" ++
  "## Troubleshooting:\n" ++
  "- If default `/t` returns unexpected content, try `/travel db`\n" ++
  "- To see all prompts: `/prompts list`\n" ++
  "- To search prompts: `/prompts search travel`\n" ++
  "- To view a prompt: `/prompts view <name>`\n" ++
  "\n" ++
  "## Creating New Prompts:\n" ++
  "```\n" ++
  "/prompts create my_travel_assistant\n" ++
  "/prompts update my_travel_assistant content \"Your prompt here...\"\n" ++
  "/prompts update my_travel_assistant category travel\n" ++
  "```"

/-- The usage text returned by _travel_custom_init when no components are
given (the second line of the source literal is twelve blanks, and the
hotels line carries two trailing blanks). -/
def travelCustomUsageText : String :=
  "Please specify components for custom initialization.\n" ++
  "            \n" ++
  "Available components:\n" ++
  "- `flights` - Flight search and booking\n" ++
  "- `hotels` - Accommodation services  \n" ++
  "- `activities` - Tours and experiences\n" ++
  "- `itinerary` - Trip planning\n" ++
  "- `budget` - Cost optimization\n" ++
  "- `safety` - Travel safety info\n" ++
  "- `luxury` - Premium services\n" ++
  "- `business` - Business travel\n" ++
  "\n" ++
  "Example: `/travel custom flights hotels itinerary`"

/-- The component-to-prompt table of _travel_custom_init, in source order. -/
def component_prompts : List (String × String) :=
  [("flights", "flight_booking_assistant"),
   ("hotels", "hotel_booking_assistant"),
   ("activities", "activity_planning_assistant"),
   ("itinerary", "itinerary_builder"),
   ("budget", "budget_optimizer"),
   ("safety", "travel_safety_advisor"),
   ("luxury", "luxury_travel_specialist"),
   ("business", "business_travel_assistant")]

/-- Embedding of SlashCommandHandler._travel_custom_init. -/
def travel_custom_init (components : List String) (pending : PendingMap) :
    String × PendingMap :=
  if components.isEmpty then (travelCustomUsageText, pending)
  else
    let selected_prompts := components.foldl (fun acc comp =>
      match component_prompts.find? (fun kv => kv.1 = pyLower comp) with
      | Option.some kv => acc ++ [kv.2]
      | Option.none => acc) []
    if selected_prompts.isEmpty then
      ("No valid components found. Available: " ++
        pyJoin ", " (component_prompts.map (fun kv => kv.1)), pending)
    else
      let prompt_list := pyJoin "\x27, \x27" selected_prompts
      ("use_tool_from_server d1-database query \x7b\"query\": \"SELECT name, content FROM prompts WHERE name IN (\x27" ++
         prompt_list ++
         "\x27) OR (category = \x27travel\x27 AND name LIKE \x27%base%\x27)\"\x7d",
       pendingInsert pending ("/travel custom " ++ pyJoin " " components)
         "travel:custom_init")

/-- Embedding of SlashCommandHandler._handle_travel_init.  The agent argument
of the source handler is never read and is omitted from the model. -/
def handle_travel_init (subcommand : Option String) (args : List String)
    (pending : PendingMap) : String × PendingMap :=
  if subcommand = Option.some "check" then
    ("use_tool_from_server d1-database query \x7b\"query\": \"SELECT name, description, category FROM prompts WHERE category IN (\x27travel\x27, \x27system\x27, \x27travel_system\x27, \x27assistant\x27) ORDER BY category, name\"\x7d",
     pendingInsert pending "/travel check" "prompts:list")
  else if subcommand = Option.some "db" then
    ("use_tool_from_server d1-database query \x7b\"query\": \"SELECT content FROM prompts WHERE name IN (\x27travel_assistant_system\x27, \x27travel_system_prompt\x27, \x27main_travel_prompt\x27, \x27travel_agent_instructions\x27) ORDER BY CASE name WHEN \x27travel_assistant_system\x27 THEN 1 WHEN \x27travel_system_prompt\x27 THEN 2 WHEN \x27main_travel_prompt\x27 THEN 3 ELSE 4 END LIMIT 1\"\x7d",
     pendingInsert pending "/travel db" "travel:init")
  else if subcommand = Option.some "full" then
    ("use_tool_from_server d1-database query \x7b\"query\": \"SELECT name, content FROM prompts WHERE category = \x27travel\x27 OR name LIKE \x27%travel%\x27 ORDER BY name\"\x7d",
     pendingInsert pending "/travel full" "travel:full_init")
  else if subcommand = Option.some "load" then
    if args.isEmpty then
      ("Please specify a prompt name. Usage: /travel load <prompt_name>", pending)
    else
      let prompt_name := pyJoin " " args
      ("use_tool_from_server d1-database query \x7b\"query\": \"SELECT content FROM prompts WHERE name = \x27" ++
         prompt_name ++ "\x27 LIMIT 1\"\x7d",
       pendingInsert pending ("/travel load " ++ prompt_name) "travel:load_specific")
  else if subcommand = Option.some "setup" then (travelSetupWizardText, pending)
  else if subcommand = Option.some "help" then (travelInitHelpText, pending)
  else if subcommand = Option.some "custom" then travel_custom_init args pending
  else
    ("use_tool_from_server prompt-server initialize_travel_assistant",
     pendingInsert pending "/travel" "travel:default")

/-- Model of json.dumps on a list of strings (default separators). -/
def jsonDumpsStrList (xs : List String) : String :=
  "[" ++ pyJoin ", " (xs.map (fun s => "\"" ++ s ++ "\"")) ++ "]"

/-- Embedding of SlashCommandHandler._handle_prompts. -/
def handle_prompts (subcommand : Option String) (args : List String)
    (pending : PendingMap) : String × PendingMap :=
  if subcommand = Option.none ∨ subcommand = Option.some "list" then
    ("use_tool_from_server d1-database query \x7b\"query\": \"SELECT name, description, category, tags, updated_at FROM prompts ORDER BY category, name\"\x7d",
     pending)
  else if subcommand = Option.some "view" then
    if args.isEmpty then
      ("Please specify a prompt name. Usage: /prompts view <prompt_name>", pending)
    else
      let prompt_name := pyJoin " " args
      ("use_tool_from_server d1-database query \x7b\"query\": \"SELECT * FROM prompts WHERE name = \x27" ++
         prompt_name ++ "\x27 LIMIT 1\"\x7d", pending)
  else if subcommand = Option.some "dashboard" then
    ("use_tool_from_server d1-database query \x7b\"query\": \"SELECT name, description, category, tags, created_at, updated_at FROM prompts ORDER BY category, name\"\x7d",
     pending)
  else if subcommand = Option.some "search" then
    if args.isEmpty then
      ("Please specify search terms. Usage: /prompts search <keywords>", pending)
    else
      let search_term := pyJoin " " args
      ("use_tool_from_server d1-database query \x7b\"query\": \"SELECT name, description, category FROM prompts WHERE name LIKE \x27%" ++
         search_term ++ "%\x27 OR description LIKE \x27%" ++ search_term ++
         "%\x27 OR content LIKE \x27%" ++ search_term ++
         "%\x27 ORDER BY name\"\x7d", pending)
  else if subcommand = Option.some "category" then
    if args.isEmpty then
      ("use_tool_from_server d1-database query \x7b\"query\": \"SELECT DISTINCT category, COUNT(*) as count FROM prompts GROUP BY category ORDER BY category\"\x7d",
       pending)
    else
      let category := pyJoin " " args
      ("use_tool_from_server d1-database query \x7b\"query\": \"SELECT name, description FROM prompts WHERE category = \x27" ++
         category ++ "\x27 ORDER BY name\"\x7d", pending)
  else if subcommand = Option.some "edit" then
    if args.isEmpty then
      ("Please specify a prompt name. Usage: /prompts edit <prompt_name>", pending)
    else
      let prompt_name := pyJoin " " args
      ("To edit the prompt \x27" ++ prompt_name ++ "\x27, follow these steps:\n\n" ++
       "1. First view the prompt: `/prompts view " ++ prompt_name ++ "`\n" ++
       "2. Then update specific fields: `/prompts update " ++ prompt_name ++
       " <field> <new_value>`\n\n" ++
       "Available fields: name, description, content, category, tags\n\n" ++
       "Example: `/prompts update " ++ prompt_name ++
       " description New description here`", pending)
  else if subcommand = Option.some "create" then
    if args.isEmpty then
      ("Please specify a prompt name. Usage: /prompts create <prompt_name>", pending)
    else
      let prompt_name := pyJoin " " args
      ("Creating new prompt \x27" ++ prompt_name ++ "\x27.\n\n" ++
       "Please provide the following details:\n" ++
       "1. **Description**: Brief description of the prompt\n" ++
       "2. **Category**: Category for organization (e.g., \x27travel\x27, \x27general\x27, \x27technical\x27)\n" ++
       "3. **Content**: The actual prompt content\n" ++
       "4. **Tags** (optional): Comma-separated tags\n\n" ++
       "Example format:\n" ++
       "```\n" ++
       "Description: A helpful travel planning assistant\n" ++
       "Category: travel\n" ++
       "Content: You are a knowledgeable travel assistant...\n" ++
       "Tags: travel, planning, assistant\n" ++
       "```",
       pendingInsert pending ("create:" ++ prompt_name) "create_workflow")
  else if subcommand = Option.some "update" then
    match args with
    | prompt_name :: field :: restArgs =>
      let new_value := if restArgs.length > 0 then pyJoin " " restArgs else ""
      let valid_fields := ["description", "content", "category", "tags"]
      if !(valid_fields.contains field) then
        ("Invalid field \x27" ++ field ++ "\x27. Valid fields: " ++
         pyJoin ", " valid_fields, pending)
      else if new_value = "" then
        ("Please provide a new value for " ++ field ++ ".", pending)
      else
        let update_query :=
          if field = "tags" then
            let tags_list := (pySplitChar ',' new_value).map pyStrip
            let tags_json := jsonDumpsStrList tags_list
            "UPDATE prompts SET " ++ field ++ " = \x27" ++ tags_json ++
            "\x27, updated_at = CURRENT_TIMESTAMP WHERE name = \x27" ++
            prompt_name ++ "\x27"
          else
            let escaped_value := pyReplaceChar new_value '\x27' "\x27\x27"
            "UPDATE prompts SET " ++ field ++ " = \x27" ++ escaped_value ++
            "\x27, updated_at = CURRENT_TIMESTAMP WHERE name = \x27" ++
            prompt_name ++ "\x27"
        ("use_tool_from_server d1-database execute \x7b\"query\": \"" ++
         update_query ++ "\"\x7d", pending)
    | _ =>
      ("Please specify prompt name and field to update. Usage: /prompts update <prompt_name> <field> <new_value>",
       pending)
  else if subcommand = Option.some "delete" then
    if args.isEmpty then
      ("Please specify a prompt name. Usage: /prompts delete <prompt_name>", pending)
    else
      let prompt_name := pyJoin " " args
      ("use_tool_from_server d1-database execute \x7b\"query\": \"DELETE FROM prompts WHERE name = \x27" ++
         prompt_name ++ "\x27\"\x7d", pending)
  else
    ("Unknown subcommand: " ++ (subcommand.getD "") ++
     ". Available: list, view, dashboard, search, category, edit, create, update, delete",
     pending)

/-- Embedding of SlashCommandHandler._handle_servers. -/
def handle_servers (_subcommand : Option String) (_args : List String)
    (pending : PendingMap) : String × PendingMap :=
  ("Please list the available MCP servers.", pending)

/-- Embedding of SlashCommandHandler._handle_connect. -/
def handle_connect (subcommand : Option String) (_args : List String)
    (pending : PendingMap) : String × PendingMap :=
  match subcommand with
  | Option.none =>
    ("Please specify a server name. Usage: /connect <server-name>", pending)
  | Option.some s =>
    ("Please connect to the MCP server named \x27" ++ s ++ "\x27.", pending)

/-- Embedding of SlashCommandHandler._handle_tools. -/
def handle_tools (subcommand : Option String) (_args : List String)
    (pending : PendingMap) : String × PendingMap :=
  match subcommand with
  | Option.some s =>
    ("Please search for tools available on the \x27" ++ s ++ "\x27 server.", pending)
  | Option.none => ("Please search for all available MCP tools.", pending)

/-- Embedding of SlashCommandHandler._handle_help. -/
def handle_help (subcommand : Option String) (_args : List String)
    (pending : PendingMap) : String × PendingMap :=
  match subcommand with
  | Option.some sc =>
    match commandsGet? sc with
    | Option.some cmd =>
      ("**/" ++ cmd.name ++ "** - " ++ cmd.description ++ "\nUsage: " ++ cmd.usage,
       pending)
    | Option.none => ("Unknown command: " ++ sc, pending)
  | Option.none =>
    let unique_commands := commands.foldl (fun acc kv =>
      if acc.any (fun c => c.name = kv.2.name) then acc else acc ++ [kv.2])
      ([] : List SlashCommand)
    ("**Available slash commands:**\n\n" ++
     String.join (unique_commands.map (fun cmd =>
       let aliases_text :=
         if !cmd.aliases.isEmpty then
           " (aliases: " ++ pyJoin ", " (cmd.aliases.map (fun a => "/" ++ a)) ++ ")"
         else ""
       "‚Ä¢ **/" ++ cmd.name ++ "** - " ++ cmd.description ++ aliases_text ++ "\n" ++
       "  Usage: " ++ cmd.usage ++ "\n\n")), pending)

/-- Embedding of the second, effective definition of
SlashCommandHandler._handle_create_prompt (the later def of the duplicated
method name is the one bound on the class). -/
def handle_create_prompt (_subcommand : Option String) (args : List String)
    (pending : PendingMap) : String × PendingMap :=
  match args with
  | name :: description :: category :: content :: restArgs =>
    let tags := match restArgs with | t :: _ => t | [] => ""
    let tags_json :=
      if tags ≠ "" then jsonDumpsStrList ((pySplitChar ',' tags).map pyStrip)
      else "[]"
    let description2 := pyReplaceChar description '\x27' "\x27\x27"
    let content2 := pyReplaceChar content '\x27' "\x27\x27"
    let insert_query :=
      "INSERT INTO prompts (name, description, category, content, tags, created_at, updated_at) " ++
      "VALUES (\x27" ++ name ++ "\x27, \x27" ++ description2 ++ "\x27, \x27" ++
      category ++ "\x27, \x27" ++ content2 ++ "\x27, \x27" ++ tags_json ++
      "\x27, CURRENT_TIMESTAMP, CURRENT_TIMESTAMP)"
    ("use_tool_from_server d1-database execute \x7b\"query\": \"" ++
     insert_query ++ "\"\x7d", pending)
  | _ =>
    ("Usage: /create-prompt <name> <description> <category> <content> [tags]\n" ++
     "Example: /create-prompt travel-assistant \x27Helpful travel planner\x27 travel \x27You are a travel assistant...\x27 \x27travel,planning\x27",
     pending)

/-- Dispatch from a handler tag to the embedded handler. -/
def run_handler : HandlerTag → Option String → List String → PendingMap →
    String × PendingMap
  | .travelInit, sub, args, p => handle_travel_init sub args p
  | .promptsH, sub, args, p => handle_prompts sub args p
  | .serversH, sub, args, p => handle_servers sub args p
  | .connectH, sub, args, p => handle_connect sub args p
  | .toolsH, sub, args, p => handle_tools sub args p
  | .helpH, sub, args, p => handle_help sub args p
  | .createPromptH, sub, args, p => handle_create_prompt sub args p

/-- Embedding of SlashCommandHandler.execute_command.  A parse of
(None, None, None) reaches the unknown-command branch, where the f-string
renders the Python value None as the four characters None.  Every modelled
handler is total, so the except branch of the source cannot fire and is not
represented. -/
def execute_command (input_text : String) (pending : PendingMap) :
    String × PendingMap :=
  match parse_command input_text with
  | Option.none =>
    ("Unknown command: /None. Use /help for available commands.", pending)
  | Option.some (command_name, subcommand, args) =>
    match commandsGet? command_name with
    | Option.none =>
      ("Unknown command: /" ++ command_name ++ ". Use /help for available commands.",
       pending)
    | Option.some command =>
      let rp := run_handler command.tag subcommand args pending
      if command_name = "prompts" && pyStartsWith rp.1 "use_tool_from_server" then
        (rp.1, pendingInsert rp.2 input_text ("prompts:" ++ subcommand.getD "list"))
      else rp

/-- Embedding of SlashCommandHandler.should_format_result. -/
def should_format_result (command_text : String) (pending : PendingMap) : Bool :=
  (pending : List (String × String)).any (fun kv => kv.1 = command_text)

/-- The database-error banner of _format_prompt_result. -/
def dbErrorBanner (result : String) : String :=
  "‚ùå Database Error: " ++ result ++ "\n\n" ++
  "Please ensure the D1 database server is running and accessible.\n" ++
  "You can check available servers with `/servers` command."

/-- The error substrings scanned for by _format_prompt_result. -/
def prompt_error_patterns : List String :=
  ["failed to connect", "connection error", "database error",
   "server error", "timeout", "not found: d1-database"]

/-- Embedding of SlashCommandHandler._format_prompt_result.  The internal
try/except of the source returns an error banner embedding the raw payload;
every modelled operation is total, so that branch cannot fire here. -/
def format_prompt_result (subcommand : String) (result : String) : String :=
  let lower_result := pyLower result
  if prompt_error_patterns.any (fun e => pyInS e lower_result) then
    dbErrorBanner result
  else
    let db_results := parse_db_results (.str result)
    if !pyTruthy db_results && pyInS "error" (pyLower result) then
      "‚ùå Database query failed: " ++ result
    else if subcommand = "list" ∨ subcommand = "dashboard" then
      if !pyTruthy db_results then
        "No prompts found in the database. The prompts table may be empty or there was an error connecting to the database."
      else format_prompt_list (pyRows db_results)
    else if subcommand = "view" then
      if pyTruthy db_results then format_prompt_detail (pyIndex0 db_results)
      else "Prompt not found. Please check the prompt name and try again."
    else if subcommand = "search" then
      if pyTruthy db_results then format_prompt_list (pyRows db_results)
      else "No prompts found matching your search criteria."
    else if subcommand = "category" then
      if pyTruthy db_results && pyLen db_results > 0 &&
          pyInS "count" (pyStr (pyIndex0 db_results)) then
        "# Prompt Categories\n\n" ++
        String.join ((pyRows db_results).map (fun row =>
          "- **" ++ pyStr (rowGetD row "category" (.str "Unknown")) ++ "**: " ++
          pyStr (rowGetD row "count" (.num 0)) ++ " prompts\n"))
      else if pyTruthy db_results then format_prompt_list (pyRows db_results)
      else "No prompts found in this category."
    else if subcommand = "edit" then
      if pyTruthy db_results then
        format_prompt_detail (pyIndex0 db_results) ++
        "\n\n---\n\nTo edit this prompt, provide the updated content."
      else "Prompt not found. Please check the prompt name and try again."
    else if subcommand = "delete" then
      if pyInS "error" (pyLower result) then
        "‚ùå Failed to delete prompt: " ++ result
      else "‚úÖ Prompt deleted successfully."
    else result

/-- Embedding of SlashCommandHandler._format_travel_result.  The except
branch of the source returns a banner without the raw payload; every modelled
operation is total, so that branch cannot fire here. -/
def format_travel_result (subcommand : String) (result : String) : String :=
  if subcommand = "default" then
    if pyInS "pricing" (pyLower result) || pyInS "tier" (pyLower result) then
      "‚ö†Ô∏è **Unexpected Response from Prompt Server**\n\n" ++
      "The prompt server returned a pricing system prompt instead of the travel assistant.\n\n" ++
      "**Try these alternatives:**\n" ++
      "1. `/travel db` - Load from database\n" ++
      "2. `/travel check` - See available prompts\n" ++
      "3. `/travel setup` - Use setup wizard\n" ++
      "4. `/travel load <prompt_name>` - Load specific prompt\n\n" ++
      "**Received:**\n" ++ strTake result 200 ++ "..."
    else "‚úÖ **Travel Assistant Initialized**\n\n" ++ result
  else if subcommand = "init" then
    let db_results := parse_db_results (.str result)
    if pyTruthy db_results &&
        pyTruthy (rowGetD (pyIndex0 db_results) "content" .null) then
      "‚úÖ **Travel Assistant Loaded from Database**\n\n" ++
      pyStr (rowGetD (pyIndex0 db_results) "content" .null)
    else
      "‚ùå No travel assistant prompt found in database.\n\n" ++
      "Please create one with:\n" ++
      "`/prompts create travel_assistant_system`"
  else if subcommand = "full_init" then
    let db_results := parse_db_results (.str result)
    if pyTruthy db_results then
      "‚úÖ **Travel Assistant Components Loaded**\n\n" ++
      String.join ((pyRows db_results).map (fun prompt =>
        "**" ++ pyStr (rowGetD prompt "name" (.str "Unknown")) ++ "**\n" ++
        strTake (pyStr (rowGetD prompt "content" (.str ""))) 200 ++ "...\n\n"))
    else "‚ùå No travel prompts found in database."
  else if subcommand = "load_specific" then
    let db_results := parse_db_results (.str result)
    if pyTruthy db_results &&
        pyTruthy (rowGetD (pyIndex0 db_results) "content" .null) then
      "‚úÖ **Prompt Loaded Successfully**\n\n" ++
      pyStr (rowGetD (pyIndex0 db_results) "content" .null)
    else "‚ùå Prompt not found. Check the name and try again."
  else if subcommand = "custom_init" then
    let db_results := parse_db_results (.str result)
    if pyTruthy db_results then
      "‚úÖ **Custom Travel Assistant Initialized**\n\n" ++
      "**Loaded Components:**\n" ++
      String.join ((pyRows db_results).map (fun prompt =>
        "- " ++ pyStr (rowGetD prompt "name" (.str "Unknown")) ++ "\n")) ++
      "\n**Combined Instructions:**\n" ++
      strTake (pyJoin "\n\n---\n\n"
        ((pyRows db_results).map (fun p => pyStr (rowGetD p "content" (.str ""))))) 500 ++
      "..."
    else "‚ùå No matching components found in database."
  else result

/-- Python tuple unpacking a, b = parts: succeeds only on a two-element list,
otherwise raises ValueError with the message modelled here. -/
def unpack2 (parts : List String) : Except String (String × String) :=
  match parts with
  | [a, b] => Except.ok (a, b)
  | [] => Except.error "ValueError: not enough values to unpack (expected 2, got 0)"
  | [_] => Except.error "ValueError: not enough values to unpack (expected 2, got 1)"
  | _ => Except.error "ValueError: too many values to unpack (expected 2)"

/-- The body of format_command_result after the pop: split the stored value
on the colon and dispatch.  The split-unpacking is not guarded by any
try/except in the source, so its failure escapes as an exception, modelled by
the error case. -/
def format_pending_value (format_info result : String) : Except String String :=
  match unpack2 (pySplitChar ':' format_info) with
  | Except.error e => Except.error e
  | Except.ok (command_type, subcommand) =>
    if command_type = "prompts" then
      Except.ok (format_prompt_result subcommand result)
    else if command_type = "travel" then
      Except.ok (format_travel_result subcommand result)
    else Except.ok result

/-- Embedding of SlashCommandHandler.format_command_result: pass the raw
result through when no entry is pending, otherwise pop the entry first and
then dispatch on the stored value.  The pop happens before the unpacking, so
the entry is consumed even when the unpacking raises. -/
def format_command_result (command_text result : String) (pending : PendingMap) :
    Except String String × PendingMap :=
  match pendingGet? pending command_text with
  | Option.none => (Except.ok result, pending)
  | Option.some format_info =>
    (format_pending_value format_info result, pendingErase pending command_text)

/-! ### Auxiliary lemmas -/

/-- A nonempty accumulator keeps splitWsAux from returning the empty list. -/
theorem splitWsAux_ne_nil (l : List Char) :
    ∀ acc : List Char, acc ≠ [] → splitWsAux l acc ≠ [] := by
  induction l with
  | nil =>
    intro acc h
    simp only [splitWsAux]
    simpa using h
  | cons c cs ih =>
    intro acc h
    simp only [splitWsAux]
    by_cases hw : c.isWhitespace
    · simp only [hw, if_true]
      have : acc.isEmpty = false := by simpa using h
      simp [this]
    · simp only [hw]
      exact ih (c :: acc) (by simp)

/-- The whitespace split is empty exactly on all-whitespace input. -/
theorem splitWsL_eq_nil_iff (l : List Char) :
    splitWsL l = [] ↔ ∀ c ∈ l, c.isWhitespace := by
  unfold splitWsL
  induction l with
  | nil => simp [splitWsAux]
  | cons c cs ih =>
    simp only [splitWsAux]
    by_cases hw : c.isWhitespace
    · simpa [hw] using ih
    · simp only [hw]
      constructor
      · intro h
        exact absurd h (splitWsAux_ne_nil cs [c] (by simp))
      · intro h
        exact absurd (h c (by simp)) hw

/-- When every character surviving dropWhile satisfies the dropped predicate,
nothing survives. -/
theorem dropWhile_self_nil (p : Char → Bool) (m : List Char)
    (h : ∀ c ∈ m.dropWhile p, p c) : m.dropWhile p = [] := by
  induction m with
  | nil => rfl
  | cons c cs ih =>
    by_cases hc : p c
    · rw [List.dropWhile_cons_of_pos hc] at h ⊢
      exact ih h
    · rw [List.dropWhile_cons_of_neg hc] at h
      exact absurd (h c (by simp)) hc

/-- A stripped string consisting only of whitespace is empty. -/
theorem pyStripL_all_ws (l : List Char)
    (h : ∀ c ∈ pyStripL l, c.isWhitespace) : pyStripL l = [] := by
  unfold pyStripL at h ⊢
  have h2 : ∀ c ∈ (l.dropWhile Char.isWhitespace).reverse.dropWhile Char.isWhitespace,
      c.isWhitespace := by
    intro c hc
    exact h c (by simpa using hc)
  rw [dropWhile_self_nil _ _ h2]
  rfl

/-- Nothing with the filtered-out key is found after filtering it away. -/
theorem find?_filter_ne (tl : List (String × String)) (k : String) :
    (tl.filter (fun kv => !(kv.1 == k))).find? (fun kv => kv.1 = k) =
      Option.none := by
  induction tl with
  | nil => rfl
  | cons kv tl ih =>
    by_cases h : kv.1 = k
    · simp [List.filter_cons, h, ih]
    · simp [List.filter_cons, h, List.find?_cons, ih]

/-- Popping a key removes its pending entry. -/
theorem pendingGet?_erase (p : PendingMap) (k : String) :
    pendingGet? (pendingErase p k) k = Option.none := by
  unfold pendingGet? pendingErase
  rw [find?_filter_ne]
  rfl

/-! ### Claim C1 -/

/-- C1 counterexample: on the input consisting of a blank followed by /help,
is_slash_command is true (it trims before testing the prefix) while
parse_command returns the NONE triple (it tests the prefix without trimming),
so the claimed exact agreement between the two is false. -/
theorem c1_counterexample :
    is_slash_command " /help" = true ∧ parse_command " /help" = Option.none :=
  ⟨rfl, rfl⟩

/-- C1 amended: is_slash_command is true exactly when the trimmed input
starts with the slash prefix, while parse_command returns a non-NONE triple
exactly when the untrimmed input starts with the slash and at least one
token follows the slash; the two conditions differ on inputs with leading
blanks and on a bare slash. -/
theorem c1_amended (s : String) :
    is_slash_command s = pyStartsWith (pyStrip s) "/" ∧
    ((parse_command s).isSome = true ↔
      (pyStartsWith s "/" = true ∧ pyStripL (s.data.drop 1) ≠ [])) := by
  refine ⟨rfl, ?_⟩
  unfold parse_command
  by_cases h : pyStartsWith s "/" = true
  · simp only [h, if_true, true_and]
    have hdata : (pyStrip (strDrop s 1)).data = pyStripL (s.data.drop 1) := rfl
    cases hsp : pySplitWs (pyStrip (strDrop s 1)) with
    | nil =>
      simp only [Option.isSome_none]
      unfold pySplitWs at hsp
      rw [List.map_eq_nil_iff] at hsp
      rw [hdata] at hsp
      have hall := (splitWsL_eq_nil_iff _).mp hsp
      have hnil : pyStripL (s.data.drop 1) = [] := pyStripL_all_ws _ hall
      rw [List.drop_one] at hnil
      simp [hnil]
    | cons c rest =>
      simp only [Option.isSome_some, true_iff]
      intro hnil
      unfold pySplitWs at hsp
      rw [hdata] at hsp
      rw [hnil] at hsp
      simp [splitWsL, splitWsAux] at hsp
  · simp only [h, if_false]
    simp only [Bool.not_eq_true] at h
    simp [h]

/-! ### Claim C2 -/

/-- C2 counterexample: the input /t check reaches the travel handler through
an alias and the handler returns a directive string, yet no pending entry is
recorded under the raw input text /t check (the handler records the fixed
key /travel check instead, and the dispatcher-level recording only fires for
the literal token prompts). -/
theorem c2_counterexample :
    pyStartsWith (execute_command "/t check" []).1 "use_tool_from_server" = true ∧
    pendingGet? (execute_command "/t check" []).2 "/t check" = Option.none ∧
    pendingGet? (execute_command "/t check" []).2 "/travel check" =
      Option.some "prompts:list" :=
  ⟨rfl, rfl, rfl⟩

/-- C2 amended: the dispatcher-level recording of a pending entry keyed by
the exact raw input, with category prompts and the subcommand (or list),
happens exactly for inputs whose typed, case-folded command token is the
literal prompts and whose handler result starts with the directive marker;
directive-emitting travel handlers instead record fixed canonical keys
inside the handler itself. -/
theorem c2_amended (input : String) (sub : Option String) (args : List String)
    (p : PendingMap)
    (hp : parse_command input = Option.some ("prompts", sub, args))
    (hdir : pyStartsWith (handle_prompts sub args p).1 "use_tool_from_server" = true) :
    execute_command input p =
      ((handle_prompts sub args p).1,
       pendingInsert (handle_prompts sub args p).2 input
         ("prompts:" ++ sub.getD "list")) := by
  unfold execute_command
  rw [hp]
  dsimp only
  rw [show commandsGet? "prompts" = Option.some promptsCmd from rfl]
  dsimp only [promptsCmd, run_handler]
  simp [hdir]

/-- C2 witness: the raw input /prompts list parses to the prompts token, its
handler emits a directive, and the dispatcher records the entry keyed by the
raw input. -/
theorem c2_witness :
    execute_command "/prompts list" [] =
      ((handle_prompts (Option.some "list") [] []).1,
       pendingInsert (handle_prompts (Option.some "list") [] []).2 "/prompts list"
         ("prompts:" ++ (Option.some "list").getD "list")) :=
  c2_amended "/prompts list" (Option.some "list") [] [] rfl rfl

/-! ### Claim C3 -/

/-- C3: format_command_result passes the raw payload through unchanged when
no entry is pending for the key, and consumes a pending entry exactly once,
so a second call with the same key passes the raw payload through. -/
theorem c3_exactly_once (key raw : String) (p : PendingMap) :
    (pendingGet? p key = Option.none →
      format_command_result key raw p = (Except.ok raw, p)) ∧
    (pendingGet? p key ≠ Option.none →
      format_command_result key raw ((format_command_result key raw p).2) =
        (Except.ok raw, (format_command_result key raw p).2)) := by
  constructor
  · intro h
    unfold format_command_result
    rw [h]
  · intro h
    obtain ⟨v, hv⟩ := Option.ne_none_iff_exists'.mp h
    have h2 : (format_command_result key raw p).2 = pendingErase p key := by
      unfold format_command_result
      rw [hv]
    rw [h2]
    unfold format_command_result
    rw [pendingGet?_erase]

/-- C3 witness at a concrete pending entry and payload. -/
theorem c3_witness :
    pendingGet? [("k", "prompts:list")] "k" ≠ Option.none ∧
    format_command_result "k" "x"
        ((format_command_result "k" "x" [("k", "prompts:list")]).2) =
      (Except.ok "x", (format_command_result "k" "x" [("k", "prompts:list")]).2) :=
  ⟨by decide, (c3_exactly_once "k" "x" [("k", "prompts:list")]).2 (by decide)⟩

/-! ### Claim C9 -/

/-- C9 counterexample: resolving the pending entry written by the prompts
create workflow raises an unpack error out of format_command_result instead
of returning a Markdown error block: the stored value create_workflow has no
colon, and the two-way split unpacking in format_command_result is not
guarded by any try/except. -/
theorem c9_counterexample :
    format_command_result "create:x" "payload" [("create:x", "create_workflow")] =
      (Except.error "ValueError: not enough values to unpack (expected 2, got 1)",
       ([] : PendingMap)) :=
  rfl

/-- C9 amended: for every pending entry whose stored value splits on the
colon into exactly two fields, the resolve path returns a string and no
failure escapes; entries without that shape make the unguarded unpacking in
format_command_result itself raise. -/
theorem c9_amended (key raw v : String) (p : PendingMap)
    (h : pendingGet? p key = Option.some v)
    (h2 : (pySplitChar ':' v).length = 2) :
    ∃ t, (format_command_result key raw p).1 = Except.ok t := by
  unfold format_command_result
  rw [h]
  dsimp only
  obtain ⟨a, b, hab⟩ := List.length_eq_two.mp h2
  unfold format_pending_value
  rw [hab]
  dsimp only [unpack2]
  by_cases hc : a = "prompts" <;> by_cases ht : a = "travel" <;> simp [hc, ht]

/-- C9 witness at a concrete well-formed pending entry. -/
theorem c9_witness :
    ∃ t, (format_command_result "k" "x" [("k", "prompts:list")]).1 = Except.ok t :=
  c9_amended "k" "x" "prompts:list" [("k", "prompts:list")] rfl rfl

/-! ### Claim C10 -/

/-- C10: whenever parse_command returns the NONE triple, execute_command
returns the unknown-command message with the literal text None interpolated
as the command name. -/
theorem c10_unknown_none (input : String) (p : PendingMap)
    (h : parse_command input = Option.none) :
    execute_command input p =
      ("Unknown command: /None. Use /help for available commands.", p) := by
  unfold execute_command
  rw [h]

/-- C10 witness: a bare slash parses to the NONE triple and yields the
unknown-command message naming None. -/
theorem c10_witness :
    parse_command "/" = Option.none ∧
    execute_command "/" [] =
      ("Unknown command: /None. Use /help for available commands.",
       ([] : PendingMap)) :=
  ⟨rfl, c10_unknown_none "/" [] rfl⟩

/-! ### Claim C4 -/

/-- C4, against the claim: for text that parses as a JSON object with none of
the error, results or rows fields, parse_db_results falls off the end of its
string branch and returns the Python value None instead of wrapping the
mapping as a one-element sequence; and a results field is returned even when
its value is not a sequence, instead of wrapping the mapping.  Both outcomes
contradict the declared List return type of the function. -/
theorem c4_missing_wrap :
    parse_db_results (.str "\x7b\"name\": \"a\"\x7d") = PyVal.null ∧
    parse_db_results (.dict [("results", .num 5)]) = PyVal.num 5 ∧
    parse_db_results (.str "\x7b\"error\": \"bad\", \"results\": [\x7b\"name\": \"a\"\x7d]\x7d") =
      PyVal.list [PyVal.dict [("name", .str "a")]] :=
  ⟨rfl, rfl, rfl⟩

/-! ### Claim C5 -/

/-- C5, against the claim: on the bare JSON scalar 5 the string branch of
parse_db_results matches no isinstance case after json parsing and the
function falls through, returning the Python value None rather than a
sequence of records; the empty input does yield the empty sequence. -/
theorem c5_scalar_not_a_sequence :
    parse_db_results (.str "5") = PyVal.null ∧
    (∀ xs, parse_db_results (.str "5") ≠ PyVal.list xs) ∧
    parse_db_results (.str "") = PyVal.list [] := by
  refine ⟨rfl, ?_, rfl⟩
  intro xs h
  have : PyVal.null = PyVal.list xs := by rw [← h]; rfl
  exact PyVal.noConfusion this

/-! ### Claim C6 -/

/-- C6 counterexample: when the pipe table does not start on the first line
of the stripped input, parse_text_results returns no records at all, against
the claim that the first pipe line anywhere in the input becomes the
header. -/
theorem c6_counterexample :
    parse_text_results "hello\nname | description\nFoo | Bar" = [] :=
  rfl

/-- C6 amended: table parsing is attempted only when the very first line of
the stripped input contains a pipe character, and otherwise yields no
records; given that, the claimed round trip holds: header name/description
with a matching data row yields exactly one record, and a data row with an
extra cell beyond the arity of the header is silently dropped. -/
theorem c6_amended :
    (∀ (t : String) (first : List Char) (rest : List (List Char)),
      splitOnCharL '\n' (pyStripL t.data) = first :: rest →
      first.contains '|' = false →
      parse_text_results t = []) ∧
    parse_text_results "name | description\nFoo | Bar" =
      [PyVal.dict [("name", .str "Foo"), ("description", .str "Bar")]] ∧
    parse_text_results "name | description\nFoo | Bar | Baz" = [] := by
  refine ⟨?_, rfl, rfl⟩
  intro t first rest hsplit hc
  unfold parse_text_results
  rw [hsplit]
  simp only [hc]
  rfl

/-- C6 witness: a pipe-free input yields no records. -/
theorem c6_witness : parse_text_results "hello" = [] :=
  c6_amended.1 "hello" ['h', 'e', 'l', 'l', 'o'] [] rfl rfl

/-! ### Claim C7 -/

set_option maxRecDepth 40000 in
/-- C7 counterexample: on the empty record sequence the dashboard view does
not return a fixed no-results sentinel; it returns the populated dashboard
document, reporting zero totals and containing no no-results text. -/
theorem c7_counterexample :
    pyStartsWith (create_prompt_editor_view []) "# Prompt Management Dashboard" = true ∧
    pyInS "No prompts found" (create_prompt_editor_view []) = false ∧
    pyEndsWith (create_prompt_editor_view []) "- Total prompts: 0\n- Categories: 0\n" = true :=
  ⟨rfl, rfl, rfl⟩

set_option maxRecDepth 40000 in
/-- C7 amended: on the empty record sequence the list view returns its fixed
no-results sentinel exactly, while the dashboard view returns its standard
document with both reported counts equal to zero. -/
theorem c7_amended :
    format_prompt_list [] = "No prompts found." ∧
    pyStartsWith (create_prompt_editor_view []) "# Prompt Management Dashboard" = true ∧
    pyEndsWith (create_prompt_editor_view []) "- Total prompts: 0\n- Categories: 0\n" = true :=
  ⟨rfl, rfl, rfl⟩

/-! ### Claim C8 -/

/-- Boolean equality on values agrees with string equality on string
values. -/
theorem pyBeq_str_str (a b : String) : PyVal.beq (.str a) (.str b) = (a == b) := by
  simp [PyVal.beq]

/-- The any-test driving group_insert finds exactly the rendered keys when
every key of the accumulator is a string value. -/
theorem any_beq_iff (acc : List (PyVal × List PyVal)) (s : String)
    (hstr : ∀ g ∈ acc, ∃ t, g.1 = PyVal.str t) :
    (acc.any (fun g => PyVal.beq g.1 (.str s)) = true) ↔ s ∈ strKeys acc := by
  simp only [List.any_eq_true, strKeys, List.mem_map]
  constructor
  · rintro ⟨g, hg, hbeq⟩
    obtain ⟨t, ht⟩ := hstr g hg
    rw [ht, pyBeq_str_str] at hbeq
    exact ⟨g, hg, by rw [ht]; simpa [pyStr] using (eq_of_beq hbeq)⟩
  · rintro ⟨g, hg, hkey⟩
    obtain ⟨t, ht⟩ := hstr g hg
    refine ⟨g, hg, ?_⟩
    rw [ht, pyBeq_str_str]
    rw [ht] at hkey
    simp only [pyStr] at hkey
    simpa using hkey

/-- Keys after a group_insert with a string key: unchanged when the key was
already present, extended by the key otherwise; and all keys stay string
values. -/
theorem group_insert_strKeys (acc : List (PyVal × List PyVal)) (s : String)
    (p : PyVal) (hstr : ∀ g ∈ acc, ∃ t, g.1 = PyVal.str t) :
    strKeys (group_insert acc (.str s) p) =
      (if s ∈ strKeys acc then strKeys acc else strKeys acc ++ [s]) ∧
    (∀ g ∈ group_insert acc (.str s) p, ∃ t, g.1 = PyVal.str t) := by
  unfold group_insert
  by_cases hmem : s ∈ strKeys acc
  · have hany : acc.any (fun g => PyVal.beq g.1 (.str s)) = true :=
      (any_beq_iff acc s hstr).mpr hmem
    rw [hany]
    simp only [if_true, hmem, if_pos]
    constructor
    · unfold strKeys
      rw [List.map_map]
      refine List.map_congr_left ?_
      intro g _
      by_cases hb : PyVal.beq g.1 (.str s) = true
      · simp [Function.comp, hb]
      · simp [Function.comp, hb]
    · intro g hg
      rw [List.mem_map] at hg
      obtain ⟨g0, hg0, hgeq⟩ := hg
      by_cases hb : PyVal.beq g0.1 (.str s) = true
      · rw [← hgeq]
        simp only [hb, if_true, if_pos]
        exact hstr g0 hg0
      · rw [← hgeq]
        simp only [hb, Bool.false_eq_true, if_false]
        exact hstr g0 hg0
  · have hany : acc.any (fun g => PyVal.beq g.1 (.str s)) = false := by
      rw [← Bool.not_eq_true]
      intro hc
      exact hmem ((any_beq_iff acc s hstr).mp hc)
    rw [hany]
    simp only [Bool.false_eq_true, if_false, hmem]
    constructor
    · unfold strKeys
      simp [pyStr]
    · intro g hg
      rw [List.mem_append] at hg
      cases hg with
      | inl h1 => exact hstr g h1
      | inr h2 =>
        simp at h2
        rw [h2]
        exact ⟨s, rfl⟩

/-- Specification of the grouping fold: provided every category rendered is
a string value, the rendered key set of the result is the key set of the
accumulator joined with the rendered categories, the keys stay distinct, and
the keys stay string values. -/
theorem foldl_group_spec (ps : List PyVal) :
    ∀ acc : List (PyVal × List PyVal),
    (∀ p ∈ ps, ∃ s, categoryOf p = PyVal.str s) →
    (∀ g ∈ acc, ∃ t, g.1 = PyVal.str t) →
    (strKeys acc).Nodup →
    (strKeys (ps.foldl (fun a p => group_insert a (categoryOf p) p) acc)).toFinset =
        (strKeys acc).toFinset ∪
        (ps.map (fun p => pyStr (categoryOf p))).toFinset ∧
    (strKeys (ps.foldl (fun a p => group_insert a (categoryOf p) p) acc)).Nodup ∧
    (∀ g ∈ ps.foldl (fun a p => group_insert a (categoryOf p) p) acc,
      ∃ t, g.1 = PyVal.str t) := by
  induction ps with
  | nil =>
    intro acc _ hacc hnd
    refine ⟨by simp, hnd, hacc⟩
  | cons p ps ih =>
    intro acc hps hacc hnd
    obtain ⟨s, hs⟩ := hps p (by simp)
    rw [List.foldl_cons]
    have hkeys := group_insert_strKeys acc s p hacc
    have hstep : group_insert acc (categoryOf p) p = group_insert acc (.str s) p := by
      rw [hs]
    rw [hstep]
    have hstr2 := hkeys.2
    by_cases hmem : s ∈ strKeys acc
    · have hk : strKeys (group_insert acc (.str s) p) = strKeys acc := by
        rw [hkeys.1, if_pos hmem]
      have ihres := ih (group_insert acc (.str s) p)
        (fun q hq => hps q (by simp [hq])) hstr2 (by rw [hk]; exact hnd)
      refine ⟨?_, ihres.2.1, ihres.2.2⟩
      rw [ihres.1, hk]
      rw [List.map_cons, hs, List.toFinset_cons]
      have hsmem : s ∈ (strKeys acc).toFinset := by simpa using hmem
      have hps2 : pyStr (PyVal.str s) = s := rfl
      rw [hps2, Finset.union_insert]
      exact (Finset.insert_eq_self.mpr (Finset.mem_union_left _ hsmem)).symm
    · have hk : strKeys (group_insert acc (.str s) p) = strKeys acc ++ [s] := by
        rw [hkeys.1, if_neg hmem]
      have hnd2 : (strKeys (group_insert acc (.str s) p)).Nodup := by
        rw [hk]
        simp [List.nodup_append]
        exact ⟨hnd, hmem⟩
      have ihres := ih (group_insert acc (.str s) p)
        (fun q hq => hps q (by simp [hq])) hstr2 hnd2
      refine ⟨?_, ihres.2.1, ihres.2.2⟩
      rw [ihres.1, hk]
      rw [List.map_cons, hs, List.toFinset_cons]
      have happ : (strKeys acc ++ [s]).toFinset = insert s (strKeys acc).toFinset := by
        simp [List.toFinset_append]
        exact Finset.union_comm _ _
      have hps2 : pyStr (PyVal.str s) = s := rfl
      rw [happ, hps2, Finset.insert_union, Finset.union_insert]

/-- The number of groups produced by the category grouping equals the number
of distinct rendered category labels, when the labels are string values. -/
theorem groupByCat_length (ps : List PyVal)
    (h : ∀ p ∈ ps, ∃ s, categoryOf p = PyVal.str s) :
    (groupByCat ps).length =
      (ps.map (fun p => pyStr (categoryOf p))).toFinset.card := by
  obtain ⟨hset, hnd, -⟩ :=
    foldl_group_spec ps [] h (by simp) (by simp [strKeys])
  have hlen : (List.foldl (fun a p => group_insert a (categoryOf p) p) [] ps).length =
      (strKeys (List.foldl (fun a p => group_insert a (categoryOf p) p) [] ps)).length := by
    simp [strKeys]
  unfold groupByCat
  rw [hlen, ← List.toFinset_card_of_nodup hnd, hset]
  simp [strKeys]

/-- C8: for every record sequence whose category labels are strings, the
dashboard view reports a total equal to the number of records and a
categories count equal to the number of distinct category labels (records
with no category all falling under the Uncategorized label). -/
theorem c8_dashboard_counts (prompts : List PyVal)
    (h : ∀ p ∈ prompts, ∃ s, categoryOf p = PyVal.str s) :
    ∃ a b : String,
      create_prompt_editor_view prompts =
        a ++ "- Total prompts: " ++ toString prompts.length ++ "\n" ++
        "- Categories: " ++
        toString ((prompts.map (fun p => pyStr (categoryOf p))).toFinset.card) ++
        "\n" ++ b := by
  refine ⟨editorIntro ++ "## All Prompts\n\n" ++
    "| Category | Name | Description | Actions |\n" ++
    "|----------|------|-------------|----------|\n" ++
    String.join ((sortByKey (fun g => pyStr g.1) (groupByCat prompts)).map (fun g =>
      String.join ((sortByKey nameKeyD g.2).map (editorRow (pyStr g.1))))) ++
    "\n---\n\n" ++ "## Quick Stats\n\n",
    String.join ((sortByKey (fun g => pyStr g.1) (groupByCat prompts)).map (fun g =>
      "  - " ++ pyStr g.1 ++ ": " ++ toString g.2.length ++ " prompts\n")), ?_⟩
  unfold create_prompt_editor_view
  dsimp only
  rw [← groupByCat_length prompts h]
  simp only [String.append_assoc]

/-- C8 witness sequence: three records in two distinct categories; the
theorem applies and the dashboard reports total three and two categories. -/
theorem c8_witness :
    ∃ a b : String,
      create_prompt_editor_view
          [PyVal.dict [("name", .str "x"), ("category", .str "travel")],
           PyVal.dict [("name", .str "y"), ("category", .str "travel")],
           PyVal.dict [("name", .str "z")]] =
        a ++ "- Total prompts: " ++
        toString ([PyVal.dict [("name", .str "x"), ("category", .str "travel")],
           PyVal.dict [("name", .str "y"), ("category", .str "travel")],
           PyVal.dict [("name", .str "z")]] : List PyVal).length ++ "\n" ++
        "- Categories: " ++
        toString ((([PyVal.dict [("name", .str "x"), ("category", .str "travel")],
           PyVal.dict [("name", .str "y"), ("category", .str "travel")],
           PyVal.dict [("name", .str "z")]] : List PyVal).map
             (fun p => pyStr (categoryOf p))).toFinset.card) ++
        "\n" ++ b :=
  c8_dashboard_counts _ (by
    intro p hp
    simp only [List.mem_cons, List.not_mem_nil, or_false] at hp
    rcases hp with rfl | rfl | rfl
    · exact ⟨"travel", rfl⟩
    · exact ⟨"travel", rfl⟩
    · exact ⟨"Uncategorized", rfl⟩)
